import Mathlib

/-!
Verification of the `hmmer_tables.domtbl` module against its specification.

The shallow embedding below translates `src/hmmer_tables/domtbl.py` into Lean:
the pydantic models become structures, Python exceptions become the `PyErr`
error type, and the fallible parsing code becomes `Except`-valued functions
whose sequencing mirrors Python evaluation order.  The collaborator modules
`hmmer_tables.csv_iter` and `hmmer_tables.interval` are not part of the
sources; definitions for them are modelled from the specification and say so
in their doc comments.
-/

/-- Python exceptions that the code under study can raise, together with the
data their messages actually carry.
`indexError` models `IndexError: list index out of range` from `x[i]` on a
short list: the exception carries no line number, no line content and no
field name.
`valueError tok` models `ValueError: invalid literal for int() with base 10`
from `int(tok)`: the message cites the offending literal `tok` and nothing
else (no field name, no line number).
`typeError` models `TypeError` (from `dataclasses.asdict` on a non-dataclass,
or `open()` on a non-path argument).
`fileNotFound` models `FileNotFoundError`/`OSError` from `open()` on a
missing or unreadable path. -/
inductive PyErr where
  | indexError
  | valueError (token : String)
  | typeError
  | fileNotFound
deriving DecidableEq, Repr

/-- Digit-run syntax accepted by Python `int(str)` after the optional sign:
a nonempty run of ASCII decimal digits in which single underscores may occur
between two digits (Python allows `1_000`), never leading, trailing or
doubled. -/
def intDigitsOk : List Char → Bool
  | [] => false
  | [c] => c.isDigit
  | c :: d :: rest =>
    c.isDigit && (if d = '_' then intDigitsOk rest else intDigitsOk (d :: rest))

/-- Numeric value of a digit run, ignoring the underscore separators. -/
def digitsToNat (cs : List Char) : Nat :=
  cs.foldl (fun a c => if c = '_' then a else a * 10 + (c.toNat - 48)) 0

/-- Model of Python `int(s)` for a string argument: surrounding whitespace is
stripped, an optional `+` or `-` sign is allowed, and the remainder must be a
base-10 digit run (`intDigitsOk`).  Returns `none` where Python raises
`ValueError`. -/
def pyIntOfString (s : String) : Option Int :=
  let cs := ((s.data.dropWhile Char.isWhitespace).reverse.dropWhile
      Char.isWhitespace).reverse
  match cs with
  | '+' :: ds => if intDigitsOk ds then some (Int.ofNat (digitsToNat ds)) else none
  | '-' :: ds => if intDigitsOk ds then some (-(Int.ofNat (digitsToNat ds))) else none
  | ds => if intDigitsOk ds then some (Int.ofNat (digitsToNat ds)) else none

/-- Python `int(s)` as a fallible computation: on failure the raised
`ValueError` message cites the offending token. -/
def pyInt (s : String) : Except PyErr Int :=
  match pyIntOfString s with
  | some n => Except.ok n
  | none => Except.error (PyErr.valueError s)

/-- Python list indexing `x[i]`: raises `IndexError` when `i` is out of
range. -/
def getItem (x : List String) (i : Nat) : Except PyErr String :=
  match x[i]? with
  | some v => Except.ok v
  | none => Except.error PyErr.indexError

/-- Model of Python `str.split()` with no separator argument: split at every
whitespace character and drop the empty pieces, so runs of whitespace act as
one separator and leading/trailing whitespace produces no tokens. -/
def splitWsAux : List Char → List Char → List (List Char)
  | [], acc => [acc.reverse]
  | c :: rest, acc =>
    if c.isWhitespace then acc.reverse :: splitWsAux rest []
    else splitWsAux rest (c :: acc)

/-- Whitespace tokenization of one line (`line.split()` in Python). -/
def pySplit (s : String) : List String :=
  ((splitWsAux s.data []).filter (fun cs => cs ≠ [])).map (fun cs => String.mk cs)

/-- Target or query identity block of a domtbl row
(`class DomTBLIndex(BaseModel)`). -/
structure DomTBLIndex where
  name : String
  accession : String
  length : Int
deriving DecidableEq, Repr

/-- Full-sequence score block (`class DomTBLSeqScore(BaseModel)`); all three
fields are kept as raw strings. -/
structure DomTBLSeqScore where
  e_value : String
  score : String
  bias : String
deriving DecidableEq, Repr

/-- Per-domain score block (`class DomTBLDomScore(BaseModel)`). -/
structure DomTBLDomScore where
  id : Int
  size : Int
  c_value : String
  i_value : String
  score : String
  bias : String
deriving DecidableEq, Repr

/-- Coordinate pair (`class DomTBLCoord(BaseModel)`): 1-based, closed
interval by convention; the model performs no bounds validation. -/
structure DomTBLCoord where
  start : Int
  stop : Int
deriving DecidableEq, Repr

/-- The 1-based closed interval type of `hmmer_tables.interval`. -/
structure RInterval where
  start : Int
  stop : Int
deriving DecidableEq, Repr

/-- The 0-based half-open interval type of `hmmer_tables.interval`. -/
structure PyInterval where
  start : Int
  stop : Int
deriving DecidableEq, Repr

/-- Modelled from the spec: `RInterval.to_pyinterval` lives in the module
`hmmer_tables.interval`, which is not under `src/`.  Per the spec, a 1-based
closed pair `(start, stop)` derives the 0-based half-open interval
`[start - 1, stop)`, with no bounds validation (`start ≤ stop` is assumed,
not checked). -/
def RInterval.to_pyinterval (r : RInterval) : PyInterval :=
  { start := r.start - 1, stop := r.stop }

/-- The `interval` property of `DomTBLCoord`: builds
`RInterval(self.start, self.stop)` and converts it with `to_pyinterval`. -/
def DomTBLCoord.interval (c : DomTBLCoord) : PyInterval :=
  (RInterval.mk c.start c.stop).to_pyinterval

/-- One parsed domtbl row (`class DomTBLRow(BaseModel)`), fields in the
declaration order of the source. -/
structure DomTBLRow where
  target : DomTBLIndex
  query : DomTBLIndex
  full_sequence : DomTBLSeqScore
  domain : DomTBLDomScore
  hmm_coord : DomTBLCoord
  ali_coord : DomTBLCoord
  env_coord : DomTBLCoord
  acc : String
  description : String
deriving DecidableEq, Repr

/-- The value a row field can take when a row is viewed as an ordered
sequence of field values (nested models stay single entries, as the values
of the field dict would). -/
inductive RowValue where
  | idx (v : DomTBLIndex)
  | seqScore (v : DomTBLSeqScore)
  | domScore (v : DomTBLDomScore)
  | coord (v : DomTBLCoord)
  | str (v : String)
deriving DecidableEq, Repr

/-- Field values of a row in declaration order: what
`dataclasses.asdict(self).values()` would yield if `DomTBLRow` were a
dataclass (Python dicts preserve field declaration order). -/
def DomTBLRow.orderedValues (r : DomTBLRow) : List RowValue :=
  [RowValue.idx r.target, RowValue.idx r.query,
   RowValue.seqScore r.full_sequence, RowValue.domScore r.domain,
   RowValue.coord r.hmm_coord, RowValue.coord r.ali_coord,
   RowValue.coord r.env_coord, RowValue.str r.acc, RowValue.str r.description]

/-- `DomTBLRow` is declared as `class DomTBLRow(BaseModel)` — a pydantic
model, not a `dataclasses` dataclass — so `dataclasses.asdict(self)` sees a
non-dataclass instance. -/
def DomTBLRow.isDataclassInstance : Bool := false

/-- Model of `DomTBLRow._asdict`, i.e. `dataclasses.asdict(self)`:
`dataclasses.asdict` returns the field dict for a dataclass instance and
raises `TypeError: asdict() should be called on dataclass instances`
otherwise. -/
def DomTBLRow.asdictValues (r : DomTBLRow) : Except PyErr (List RowValue) :=
  if DomTBLRow.isDataclassInstance then Except.ok r.orderedValues
  else Except.error PyErr.typeError

/-- Model of `DomTBLRow.__iter__`, i.e. `iter(self._asdict().values())`. -/
def DomTBLRow.iterValues (r : DomTBLRow) : Except PyErr (List RowValue) :=
  DomTBLRow.asdictValues r

/-- Pydantic models that declare no configuration use the default one, which
permits attribute assignment (v1 `allow_mutation = True`, v2
`frozen = False`).  None of the domtbl models declares a config. -/
def pydanticModelsFrozen : Bool := false

/-- Model of the attribute assignment `index.name = v` on a constructed
`DomTBLIndex`: pydantic raises `TypeError` for frozen models and mutates the
instance otherwise. -/
def DomTBLIndex.setName (r : DomTBLIndex) (v : String) : Except PyErr DomTBLIndex :=
  if pydanticModelsFrozen then Except.error PyErr.typeError
  else Except.ok { r with name := v }

/-- Model of the attribute assignment `row.acc = v` on a constructed
`DomTBLRow`. -/
def DomTBLRow.setAcc (r : DomTBLRow) (v : String) : Except PyErr DomTBLRow :=
  if pydanticModelsFrozen then Except.error PyErr.typeError
  else Except.ok { r with acc := v }

/-- Parse the token list of one line into a row, mirroring the body of the
`DomTBLRow(...)` construction in `read_domtbl` with Python argument
evaluation order: `x[0], x[1], int(x[2]), x[3], x[4], int(x[5]), x[6]..x[8],
int(x[9]), int(x[10]), x[11]..x[14], int(x[15]), int(x[16]), int(x[17]),
int(x[18]), int(x[19]), int(x[20]), x[21]`, then the total slice
`" ".join(x[22:])`.  Pydantic validation cannot fail here because every
argument already has the declared type. -/
def parseRow (x : List String) : Except PyErr DomTBLRow := do
  let tname ← getItem x 0
  let tacc ← getItem x 1
  let tlen ← pyInt (← getItem x 2)
  let qname ← getItem x 3
  let qacc ← getItem x 4
  let qlen ← pyInt (← getItem x 5)
  let fev ← getItem x 6
  let fsc ← getItem x 7
  let fbi ← getItem x 8
  let did ← pyInt (← getItem x 9)
  let dsize ← pyInt (← getItem x 10)
  let dcv ← getItem x 11
  let div ← getItem x 12
  let dsc ← getItem x 13
  let dbi ← getItem x 14
  let hs ← pyInt (← getItem x 15)
  let ht ← pyInt (← getItem x 16)
  let as_ ← pyInt (← getItem x 17)
  let at_ ← pyInt (← getItem x 18)
  let es ← pyInt (← getItem x 19)
  let et ← pyInt (← getItem x 20)
  let accv ← getItem x 21
  pure
    { target := { name := tname, accession := tacc, length := tlen },
      query := { name := qname, accession := qacc, length := qlen },
      full_sequence := { e_value := fev, score := fsc, bias := fbi },
      domain := { id := did, size := dsize, c_value := dcv, i_value := div,
                  score := dsc, bias := dbi },
      hmm_coord := { start := hs, stop := ht },
      ali_coord := { start := as_, stop := at_ },
      env_coord := { start := es, stop := et },
      acc := accv,
      description := String.intercalate " " (x.drop 22) }

/-- Modelled from the spec: `csv_iter` (module `hmmer_tables.csv_iter`) is
not under `src/`.  Per the spec the line-iteration collaborator hands the
core, for each non-blank data line in file order, the ordered sequence of
its whitespace-delimited tokens; blank-line skipping is its responsibility.
Comment-line handling is declared out of core scope by the spec and is not
modelled. -/
def csv_iter : List String → List (List String)
  | [] => []
  | l :: ls =>
    if pySplit l = [] then csv_iter ls else pySplit l :: csv_iter ls

/-- The row-accumulation loop of `read_domtbl`: one row is appended per
token list, and the first raised exception aborts the whole call, so no
partial list ever escapes. -/
def mapParse : List (List String) → Except PyErr (List DomTBLRow)
  | [] => Except.ok []
  | t :: ts => do
    let r ← parseRow t
    let rs ← mapParse ts
    pure (r :: rs)

/-- Body of `read_domtbl` once the file is open: iterate `csv_iter` over the
lines and build one `DomTBLRow` per token list. -/
def read_domtbl_lines (lines : List String) : Except PyErr (List DomTBLRow) :=
  mapParse (csv_iter lines)

/-- Argument passed to `read_domtbl`: either a filesystem path or an
already-open readable text stream (the docstring advertises both). -/
inductive FileArg where
  | path (p : String)
  | stream (lines : List String)
deriving DecidableEq, Repr

/-- Model of the Python builtin `open(filename, "r")` against a filesystem
modelled as an association list from path to lines.  `open` accepts only
path-like arguments (`str`, `bytes`, `os.PathLike`, or an integer file
descriptor): a missing or unreadable path raises `FileNotFoundError`, and a
text-stream object is not path-like, so passing one raises `TypeError`
before anything is read. -/
def pyOpen (fs : List (String × List String)) (arg : FileArg) :
    Except PyErr (List String) :=
  match arg with
  | FileArg.path p =>
    match fs.lookup p with
    | some ls => Except.ok ls
    | none => Except.error PyErr.fileNotFound
  | FileArg.stream _ => Except.error PyErr.typeError

/-- The entry point `read_domtbl(filename)`: open the argument with the
builtin `open`, then parse every yielded token list into a row. -/
def read_domtbl (fs : List (String × List String)) (arg : FileArg) :
    Except PyErr (List DomTBLRow) := do
  let ls ← pyOpen fs arg
  read_domtbl_lines ls

/-- The token positions that `read_domtbl` coerces with `int(...)`. -/
def intPositions : List Nat := [2, 5, 9, 10, 15, 16, 17, 18, 19, 20]

/-- A token list that parses into a row: at least 22 tokens, and every
integer-typed position holds a token accepted by Python `int`. -/
abbrev GoodTokens (x : List String) : Prop :=
  22 ≤ x.length ∧ ∀ i ∈ intPositions, (pyIntOfString (x.getD i "")).isSome = true

/-- Integer value of a token, defaulting to 0; on `GoodTokens` input the
default is never used. -/
def intOf (s : String) : Int := (pyIntOfString s).getD 0

/-- The row the specification (section 4.3) prescribes for a token list:
tokens 0-21 mapped positionally, positions 2, 5, 9, 10 and 15-20 coerced to
integers, score-like tokens kept as raw strings, and the description formed
by joining the tokens from position 22 on with single spaces. -/
def specRow (x : List String) : DomTBLRow where
  target := { name := x.getD 0 "", accession := x.getD 1 "",
              length := intOf (x.getD 2 "") }
  query := { name := x.getD 3 "", accession := x.getD 4 "",
             length := intOf (x.getD 5 "") }
  full_sequence := { e_value := x.getD 6 "", score := x.getD 7 "",
                     bias := x.getD 8 "" }
  domain := { id := intOf (x.getD 9 ""), size := intOf (x.getD 10 ""),
              c_value := x.getD 11 "", i_value := x.getD 12 "",
              score := x.getD 13 "", bias := x.getD 14 "" }
  hmm_coord := { start := intOf (x.getD 15 ""), stop := intOf (x.getD 16 "") }
  ali_coord := { start := intOf (x.getD 17 ""), stop := intOf (x.getD 18 "") }
  env_coord := { start := intOf (x.getD 19 ""), stop := intOf (x.getD 20 "") }
  acc := x.getD 21 ""
  description := String.intercalate " " (x.drop 22)

/-- A concrete row used to instantiate universally quantified statements. -/
def sampleRow : DomTBLRow :=
  specRow (pySplit "t ta 1 q qa 2 a b c 3 4 d e f g 5 6 7 8 9 10 0.9")

theorem except_bind_ok {ε α β : Type} (e : Except ε α) (f : α → Except ε β) (b : β) :
    (e >>= f) = Except.ok b ↔ ∃ a, e = Except.ok a ∧ f a = Except.ok b := by
  show Except.bind e f = Except.ok b ↔ _
  cases e with
  | error x => simp [Except.bind]
  | ok a => simp [Except.bind]

theorem except_pure_ok {ε α : Type} (a b : α) :
    (pure a : Except ε α) = Except.ok b ↔ a = b := by
  show Except.ok a = Except.ok b ↔ a = b
  simp

theorem except_bind_ok_eval {ε α β : Type} (a : α) (f : α → Except ε β) :
    (Except.ok a >>= f) = f a := rfl

theorem except_bind_err {ε α β : Type} (x : ε) (f : α → Except ε β) :
    ((Except.error x : Except ε α) >>= f) = Except.error x := rfl

theorem except_pure_eq_ok {ε α : Type} (a : α) :
    (pure a : Except ε α) = Except.ok a := rfl

theorem getItem_ok {x : List String} {i : Nat} (h : i < x.length) :
    getItem x i = Except.ok (x.getD i "") := by
  simp [getItem, List.getElem?_eq_getElem h, List.getD, List.getD_eq_getElem?_getD]

theorem getItem_err {x : List String} {i : Nat} (h : x.length ≤ i) :
    getItem x i = Except.error PyErr.indexError := by
  simp [getItem, List.getElem?_eq_none h]

theorem getItem_ok_lt {x : List String} {i : Nat} {v : String}
    (h : getItem x i = Except.ok v) : i < x.length := by
  by_contra hc
  rw [getItem_err (by omega)] at h
  exact absurd h (by simp)

theorem pyInt_ok {s : String} {n : Int} (h : pyIntOfString s = some n) :
    pyInt s = Except.ok n := by
  simp [pyInt, h]

theorem pyInt_err {s : String} (h : pyIntOfString s = none) :
    pyInt s = Except.error (PyErr.valueError s) := by
  simp [pyInt, h]

theorem parseRow_ok_of_good (x : List String) (h : GoodTokens x) :
    parseRow x = Except.ok (specRow x) := by
  obtain ⟨hlen, hint⟩ := h
  obtain ⟨n2, e2⟩ := Option.isSome_iff_exists.mp (hint 2 (by decide))
  obtain ⟨n5, e5⟩ := Option.isSome_iff_exists.mp (hint 5 (by decide))
  obtain ⟨n9, e9⟩ := Option.isSome_iff_exists.mp (hint 9 (by decide))
  obtain ⟨n10, e10⟩ := Option.isSome_iff_exists.mp (hint 10 (by decide))
  obtain ⟨n15, e15⟩ := Option.isSome_iff_exists.mp (hint 15 (by decide))
  obtain ⟨n16, e16⟩ := Option.isSome_iff_exists.mp (hint 16 (by decide))
  obtain ⟨n17, e17⟩ := Option.isSome_iff_exists.mp (hint 17 (by decide))
  obtain ⟨n18, e18⟩ := Option.isSome_iff_exists.mp (hint 18 (by decide))
  obtain ⟨n19, e19⟩ := Option.isSome_iff_exists.mp (hint 19 (by decide))
  obtain ⟨n20, e20⟩ := Option.isSome_iff_exists.mp (hint 20 (by decide))
  simp only [parseRow,
    getItem_ok (show 0 < x.length by omega), getItem_ok (show 1 < x.length by omega),
    getItem_ok (show 2 < x.length by omega), getItem_ok (show 3 < x.length by omega),
    getItem_ok (show 4 < x.length by omega), getItem_ok (show 5 < x.length by omega),
    getItem_ok (show 6 < x.length by omega), getItem_ok (show 7 < x.length by omega),
    getItem_ok (show 8 < x.length by omega), getItem_ok (show 9 < x.length by omega),
    getItem_ok (show 10 < x.length by omega), getItem_ok (show 11 < x.length by omega),
    getItem_ok (show 12 < x.length by omega), getItem_ok (show 13 < x.length by omega),
    getItem_ok (show 14 < x.length by omega), getItem_ok (show 15 < x.length by omega),
    getItem_ok (show 16 < x.length by omega), getItem_ok (show 17 < x.length by omega),
    getItem_ok (show 18 < x.length by omega), getItem_ok (show 19 < x.length by omega),
    getItem_ok (show 20 < x.length by omega), getItem_ok (show 21 < x.length by omega),
    pyInt_ok e2, pyInt_ok e5, pyInt_ok e9, pyInt_ok e10, pyInt_ok e15, pyInt_ok e16,
    pyInt_ok e17, pyInt_ok e18, pyInt_ok e19, pyInt_ok e20,
    except_bind_ok_eval, except_pure_eq_ok]
  simp only [List.getD, List.get?_eq_getElem?] at e2 e5 e9 e10 e15 e16 e17 e18 e19 e20
  simp [specRow, intOf, List.getD, e2, e5, e9, e10, e15, e16, e17, e18, e19, e20]

theorem parseRow_ok_le {x : List String} {r : DomTBLRow}
    (h : parseRow x = Except.ok r) : 22 ≤ x.length := by
  simp only [parseRow, except_bind_ok, except_pure_ok] at h
  obtain ⟨a0, h0, a1, h1, a2, h2, b2, hb2, a3, h3, a4, h4, a5, h5, b5, hb5,
    a6, h6, a7, h7, a8, h8, a9, h9, b9, hb9, a10, h10, b10, hb10,
    a11, h11, a12, h12, a13, h13, a14, h14,
    a15, h15, b15, hb15, a16, h16, b16, hb16, a17, h17, b17, hb17,
    a18, h18, b18, hb18, a19, h19, b19, hb19, a20, h20, b20, hb20,
    a21, h21, hfin⟩ := h
  have := getItem_ok_lt h21
  omega

theorem csv_iter_cons_ne {l : String} {ls : List String} (h : pySplit l ≠ []) :
    csv_iter (l :: ls) = pySplit l :: csv_iter ls := by
  simp [csv_iter, h]

theorem parseRow_len10 {x : List String} (hlen : x.length = 10)
    (h2 : (pyIntOfString (x.getD 2 "")).isSome = true)
    (h5 : (pyIntOfString (x.getD 5 "")).isSome = true)
    (h9 : (pyIntOfString (x.getD 9 "")).isSome = true) :
    parseRow x = Except.error PyErr.indexError := by
  obtain ⟨n2, e2⟩ := Option.isSome_iff_exists.mp h2
  obtain ⟨n5, e5⟩ := Option.isSome_iff_exists.mp h5
  obtain ⟨n9, e9⟩ := Option.isSome_iff_exists.mp h9
  simp only [parseRow,
    getItem_ok (show 0 < x.length by omega), getItem_ok (show 1 < x.length by omega),
    getItem_ok (show 2 < x.length by omega), getItem_ok (show 3 < x.length by omega),
    getItem_ok (show 4 < x.length by omega), getItem_ok (show 5 < x.length by omega),
    getItem_ok (show 6 < x.length by omega), getItem_ok (show 7 < x.length by omega),
    getItem_ok (show 8 < x.length by omega), getItem_ok (show 9 < x.length by omega),
    getItem_err (show x.length ≤ 10 by omega),
    pyInt_ok e2, pyInt_ok e5, pyInt_ok e9,
    except_bind_ok_eval, except_bind_err]

/-- C1: for every input line with at least 22 whitespace-separated fields
(whose integer-typed tokens are valid integers), `read_domtbl` produces
exactly one row per line, in file order, whose structured fields equal the
first 22 tokens under the fixed positional mapping and whose description is
the remaining tokens joined by single spaces — `specRow` spells out exactly
that mapping. -/
theorem domtbl_c1 (lines : List String)
    (h : ∀ l ∈ lines, GoodTokens (pySplit l)) :
    read_domtbl_lines lines = Except.ok (lines.map fun l => specRow (pySplit l)) := by
  induction lines with
  | nil => rfl
  | cons l ls ih =>
    have hl := h l (by simp)
    have ih2 := ih (fun m hm => h m (by simp [hm]))
    simp only [read_domtbl_lines] at ih2 ⊢
    rw [csv_iter_cons_ne (List.length_pos.mp (by have := hl.1; omega))]
    simp only [mapParse, parseRow_ok_of_good _ hl, except_bind_ok_eval, ih2,
      except_pure_eq_ok, List.map_cons]

/-- Witness for C1 at the concrete scenario line of the specification. -/
theorem domtbl_c1_witness :
    (∀ l ∈ ["sp|P1 ACC1 100 sp|Q1 ACC2 200 1e-10 50.0 0.5 1 1 1e-12 1e-11 48.0 0.3 10 50 12 48 1 60 0.95 Example description here"],
      GoodTokens (pySplit l)) ∧
    read_domtbl_lines
        ["sp|P1 ACC1 100 sp|Q1 ACC2 200 1e-10 50.0 0.5 1 1 1e-12 1e-11 48.0 0.3 10 50 12 48 1 60 0.95 Example description here"] =
      Except.ok
        (["sp|P1 ACC1 100 sp|Q1 ACC2 200 1e-10 50.0 0.5 1 1 1e-12 1e-11 48.0 0.3 10 50 12 48 1 60 0.95 Example description here"].map
          fun l => specRow (pySplit l)) :=
  ⟨by decide, domtbl_c1 _ (by decide)⟩

/-- C2: for every coordinate pair with `start ≤ stop`, the `interval`
property returns the 0-based half-open interval `(start - 1, stop)`, whose
length equals the cardinality `stop - start + 1` of the 1-based closed
interval. -/
theorem domtbl_c2 (start stop : Int) (h : start ≤ stop) :
    DomTBLCoord.interval { start := start, stop := stop } =
        { start := start - 1, stop := stop } ∧
      stop - (start - 1) = stop - start + 1 :=
  ⟨rfl, by omega⟩

/-- Witness for C2 at the concrete pair (10, 50) of the specification
scenario, whose interval is (9, 50). -/
theorem domtbl_c2_witness :
    (10 : Int) ≤ 50 ∧
      (DomTBLCoord.interval { start := 10, stop := 50 } =
          { start := 10 - 1, stop := 50 } ∧
        (50 : Int) - (10 - 1) = 50 - 10 + 1) :=
  ⟨by norm_num, domtbl_c2 10 50 (by norm_num)⟩

/-- C3, code bug: `DomTBLRow.__iter__` calls `dataclasses.asdict(self)`, but
`DomTBLRow` is a pydantic model and not a dataclass, so iterating any
constructed row raises `TypeError` instead of yielding the ordered field
values. -/
theorem domtbl_c3 (r : DomTBLRow) :
    DomTBLRow.iterValues r = Except.error PyErr.typeError := rfl

/-- C6, code bug: `read_domtbl` passes its argument straight to the builtin
`open`, so handing it an already-open readable text stream — advertised by
the docstring and the spec — raises `TypeError` and yields no rows. -/
theorem domtbl_c6 (fs : List (String × List String)) (ls : List String) :
    read_domtbl fs (FileArg.stream ls) = Except.error PyErr.typeError := rfl

/-- C7: when the path does not exist, `read_domtbl` fails with the file
access error before producing any row: the result is the bare error, with no
partial row list. -/
theorem domtbl_c7 (fs : List (String × List String)) (p : String)
    (h : fs.lookup p = none) :
    read_domtbl fs (FileArg.path p) = Except.error PyErr.fileNotFound := by
  show (pyOpen fs (FileArg.path p) >>= read_domtbl_lines) = _
  simp [pyOpen, h, except_bind_err]

/-- Witness for C7 on the empty filesystem. -/
theorem domtbl_c7_witness :
    ([] : List (String × List String)).lookup "missing.tbl" = none ∧
      read_domtbl [] (FileArg.path "missing.tbl") =
        Except.error PyErr.fileNotFound :=
  ⟨rfl, domtbl_c7 [] "missing.tbl" rfl⟩

/-- C8, counterexample to immutability: attribute assignment on a
constructed `DomTBLIndex` succeeds under pydantic's default configuration
and changes the `name` field. -/
theorem domtbl_c8_cex :
    DomTBLIndex.setName { name := "t", accession := "a", length := 1 } "u" =
        Except.ok { name := "u", accession := "a", length := 1 } ∧
      ({ name := "u", accession := "a", length := 1 } : DomTBLIndex) ≠
        { name := "t", accession := "a", length := 1 } :=
  ⟨rfl, by decide⟩

/-- C8, amended: the domtbl models keep pydantic's default (mutable)
configuration, so attribute assignment on a constructed Index or Row
succeeds and updates the assigned field; immutability is not enforced. -/
theorem domtbl_c8 (i : DomTBLIndex) (r : DomTBLRow) (v : String) :
    DomTBLIndex.setName i v = Except.ok { i with name := v } ∧
      DomTBLRow.setAcc r v = Except.ok { r with acc := v } :=
  ⟨rfl, rfl⟩

/-- C9: no bounds validation anywhere in the coordinate-to-interval path:
for every pair of integers, also when `start > stop`, the coordinate is
constructed and its `interval` is computed without error. -/
theorem domtbl_c9 (start stop : Int) :
    DomTBLCoord.interval { start := start, stop := stop } =
      { start := start - 1, stop := stop } := rfl

/-- C4, counterexample to the diagnostics half of the claim: two different
short lines make the parse fail with literally the same bare
index-out-of-range error, so the error surfaces neither the line number nor
the line content. -/
theorem domtbl_c4_cex :
    read_domtbl_lines ["a b 1 d e 2 f g h 3"] = Except.error PyErr.indexError ∧
      read_domtbl_lines ["x y 7"] = Except.error PyErr.indexError ∧
      "a b 1 d e 2 f g h 3" ≠ "x y 7" :=
  ⟨rfl, rfl, by decide⟩

/-- C4, amended: a non-blank line with fewer than 22 tokens gives no usable
result — a 10-token line whose integer tokens are valid fails with the bare
index-out-of-range error (carrying no line diagnostics), and more generally
no token list shorter than 22 ever yields a row. -/
theorem domtbl_c4 :
    (∀ l : String, (pySplit l).length = 10 →
        (∀ i ∈ ([2, 5, 9] : List Nat),
          (pyIntOfString ((pySplit l).getD i "")).isSome = true) →
        read_domtbl_lines [l] = Except.error PyErr.indexError)
    ∧ ∀ x : List String, x.length < 22 → ∀ r : DomTBLRow,
        parseRow x ≠ Except.ok r := by
  constructor
  · intro l hlen hint
    simp only [read_domtbl_lines]
    rw [csv_iter_cons_ne (List.length_pos.mp (by omega))]
    simp only [csv_iter, mapParse,
      parseRow_len10 hlen (hint 2 (by decide)) (hint 5 (by decide))
        (hint 9 (by decide)),
      except_bind_err]
  · intro x hx r hok
    have := parseRow_ok_le hok
    omega

/-- Witness for C4 at a concrete 10-token line and a concrete 1-token list. -/
theorem domtbl_c4_witness :
    read_domtbl_lines ["a0 b0 1 d0 e0 2 f0 g0 h0 3"] =
        Except.error PyErr.indexError ∧
      parseRow ["a0"] ≠ Except.ok sampleRow :=
  ⟨domtbl_c4.1 "a0 b0 1 d0 e0 2 f0 g0 h0 3" (by decide) (by decide),
   domtbl_c4.2 ["a0"] (by decide) sampleRow⟩

/-- C5, counterexample to the field-identification half of the claim: a
line with `N/A` in the domain-id column and a line with `N/A` in the
target-length column fail with literally the same error, which carries the
offending token and nothing else — in particular it does not name the field
`domain.id`. -/
theorem domtbl_c5_cex :
    read_domtbl_lines ["t ta 1 q qa 2 a b c N/A 4 d e f g 5 6 7 8 9 10 0.9"] =
        Except.error (PyErr.valueError "N/A") ∧
      read_domtbl_lines ["t ta N/A q qa 2 a b c 3 4 d e f g 5 6 7 8 9 10 0.9"] =
        Except.error (PyErr.valueError "N/A") :=
  ⟨rfl, rfl⟩

/-- C5, amended: a token that Python `int` rejects at an integer-typed
position (here the domain-id position 9, with the earlier integer positions
valid) makes the parse fail with a numeric-coercion error that carries
exactly the offending token — not the field name.  Score-like positions are
never coerced, so their tokens never cause this error (the C1 theorem
constrains only the ten integer positions). -/
theorem domtbl_c5 (x : List String) (hlen : 22 ≤ x.length)
    (h2 : (pyIntOfString (x.getD 2 "")).isSome = true)
    (h5 : (pyIntOfString (x.getD 5 "")).isSome = true)
    (h9 : pyIntOfString (x.getD 9 "") = none) :
    parseRow x = Except.error (PyErr.valueError (x.getD 9 "")) := by
  obtain ⟨n2, e2⟩ := Option.isSome_iff_exists.mp h2
  obtain ⟨n5, e5⟩ := Option.isSome_iff_exists.mp h5
  simp only [parseRow,
    getItem_ok (show 0 < x.length by omega), getItem_ok (show 1 < x.length by omega),
    getItem_ok (show 2 < x.length by omega), getItem_ok (show 3 < x.length by omega),
    getItem_ok (show 4 < x.length by omega), getItem_ok (show 5 < x.length by omega),
    getItem_ok (show 6 < x.length by omega), getItem_ok (show 7 < x.length by omega),
    getItem_ok (show 8 < x.length by omega), getItem_ok (show 9 < x.length by omega),
    pyInt_ok e2, pyInt_ok e5, pyInt_err h9,
    except_bind_ok_eval, except_bind_err]

/-- Witness for C5 at a concrete line with `N/A` in the domain-id column. -/
theorem domtbl_c5_witness :
    parseRow (pySplit "t ta 1 q qa 2 a b c N/A 4 d e f g 5 6 7 8 9 10 0.9") =
      Except.error (PyErr.valueError
        ((pySplit "t ta 1 q qa 2 a b c N/A 4 d e f g 5 6 7 8 9 10 0.9").getD 9 "")) :=
  domtbl_c5 _ (by decide) (by decide) (by decide) (by decide)

/-- C10: a line with exactly 22 tokens (whose integer tokens are valid)
parses into exactly one row, and that row's description is the empty
string. -/
theorem domtbl_c10 (l : String) (hlen : (pySplit l).length = 22)
    (hint : ∀ i ∈ intPositions,
      (pyIntOfString ((pySplit l).getD i "")).isSome = true) :
    read_domtbl_lines [l] = Except.ok [specRow (pySplit l)] ∧
      (specRow (pySplit l)).description = "" := by
  constructor
  · simp only [read_domtbl_lines]
    rw [csv_iter_cons_ne (List.length_pos.mp (by omega))]
    simp only [csv_iter, mapParse, parseRow_ok_of_good _ ⟨by omega, hint⟩,
      except_bind_ok_eval, except_pure_eq_ok]
  · show String.intercalate " " ((pySplit l).drop 22) = ""
    rw [← hlen, List.drop_length]
    rfl

/-- Witness for C10 at a concrete 22-token line. -/
theorem domtbl_c10_witness :
    read_domtbl_lines ["t ta 1 q qa 2 a b c 3 4 d e f g 5 6 7 8 9 10 0.9"] =
        Except.ok [specRow (pySplit "t ta 1 q qa 2 a b c 3 4 d e f g 5 6 7 8 9 10 0.9")] ∧
      (specRow (pySplit "t ta 1 q qa 2 a b c 3 4 d e f g 5 6 7 8 9 10 0.9")).description = "" :=
  domtbl_c10 _ (by decide) (by decide)
